import Mathlib

set_option maxHeartbeats 1000000
set_option maxRecDepth 4000

/-!
Shallow embedding of the minimize-to-tray wrapper programs
(src/tray_wrapper/main.py, src/minimize_to_tray_wrapper/main.py and
src/multi_app_tray/main.py) together with theorems settling the frozen
claims about them.

Modelling conventions:
- Python strings are List Char (ASCII in all inputs that can occur here);
  the output of the window-listing tool is a list of lines, each a List Char
  (the splitlines step of check_output output is taken as given).
- A call of the external listing tool is a value of
  Except Unit (List (List Char)): error models the call raising for any
  reason (missing binary, non-zero exit); ok carries the output lines.
- A raised exception inside a try block is an Except.error that the
  enclosing handler turns into the logged no-result path.
- External side effects are recorded as a trace, a List Cmd, in program
  order. Outcomes of external calls the control flow depends on (exit
  status of check=True calls, a raising xdotool invocation, the outcome of
  terminate-and-wait, process liveness at poll or menu time) enter as
  explicit oracle arguments.
- Python truthiness is modelled exactly: None and 0 are falsy for window
  ids, None and the empty string are falsy for the class matcher. A window
  id of 0 (the X11 null resource, never produced by a real listing) is
  therefore treated by the code as unresolved, and the claims are read with
  that meaning of a known or resolved handle.
-/

namespace Py

/-- ASCII whitespace recognized by the default separator of Python
str.split. The listing-tool output is ASCII, so wider Unicode whitespace is
not modelled. -/
def isSpace (c : Char) : Bool :=
  c == ' ' || c == '\t' || c == '\n' || c == '\r' || c == '\x0b' || c == '\x0c'

/-- Decrement an optional split budget; the unlimited budget stays
unlimited. -/
def budgetDec : Option Nat → Option Nat
  | none => none
  | some n => some (n - 1)

/-- Worker for Python str.split with the default whitespace separator and an
optional maxsplit. The acc argument holds the reversed characters of the
token currently being read, or none between tokens. Once the budget hits
zero at the start of a further token, the rest of the string (leading
whitespace already stripped) becomes the final element, as in Python. -/
def splitGo : Option Nat → Option (List Char) → List Char → List (List Char)
  | _, none, [] => []
  | _, some acc, [] => [acc.reverse]
  | budget, none, c :: cs =>
    if isSpace c then splitGo budget none cs
    else
      match budget with
      | some 0 => [c :: cs]
      | _ => splitGo budget (some [c]) cs
  | budget, some acc, c :: cs =>
    if isSpace c then acc.reverse :: splitGo (budgetDec budget) none cs
    else splitGo budget (some (c :: acc)) cs

/-- Python line.split(None, k) for maxsplit = some k, and line.split() for
maxsplit = none. -/
def split (maxsplit : Option Nat) (s : List Char) : List (List Char) :=
  splitGo maxsplit none s

/-- Python str.isdigit on ASCII: nonempty and all decimal digits. Unicode
digit classes beyond ASCII are not modelled; the PID field of wmctrl output
is ASCII. -/
def isdigit (s : List Char) : Bool :=
  !s.isEmpty && s.all Char.isDigit

/-- Accumulator worker for the decimal value of a digit string. -/
def decGo : Nat → List Char → Nat
  | acc, [] => acc
  | acc, c :: cs => decGo (acc * 10 + (c.toNat - '0'.toNat)) cs

/-- Decimal value of a digit string, as Python int() computes it on a string
that passed isdigit (ASCII case). -/
def decNat (s : List Char) : Nat := decGo 0 s

/-- Value of one hex digit, none for a non-hex character. -/
def hexVal? (c : Char) : Option Nat :=
  if '0' ≤ c ∧ c ≤ '9' then some (c.toNat - '0'.toNat)
  else if 'a' ≤ c ∧ c ≤ 'f' then some (c.toNat - 'a'.toNat + 10)
  else if 'A' ≤ c ∧ c ≤ 'F' then some (c.toNat - 'A'.toNat + 10)
  else none

/-- Accumulator worker reading hex digits; none on the first non-hex
character. -/
def hexGo : Nat → List Char → Option Nat
  | acc, [] => some acc
  | acc, c :: cs =>
    match hexVal? c with
    | some v => hexGo (acc * 16 + v) cs
    | none => none

/-- Magnitude of a nonempty all-hex string. -/
def hexMag : List Char → Option Nat
  | [] => none
  | c :: cs => hexGo 0 (c :: cs)

/-- Magnitude part of Python int(s, 16): an optional 0x or 0X marker, then
hex digits. Digit-group underscores, legal in Python numeric strings, are
not modelled; they never occur in wmctrl window ids, and both the embedded
code and the claim-side definitions share this reader. -/
def int16core : List Char → Option Nat
  | '0' :: c :: cs => if c = 'x' ∨ c = 'X' then hexMag cs else hexMag ('0' :: c :: cs)
  | s => hexMag s

/-- Python int(s, 16) on a whitespace-free token: optional sign, optional 0x
marker, hex digits. none models the ValueError raise. -/
def int16 : List Char → Option Int
  | '+' :: s => (int16core s).map (fun n => (n : Int))
  | '-' :: s => (int16core s).map (fun n => -(n : Int))
  | s => (int16core s).map (fun n => (n : Int))

/-- Does the second list start with the first. -/
def startsList : List Char → List Char → Bool
  | [], _ => true
  | _ :: _, [] => false
  | a :: as, b :: bs => a == b && startsList as bs

/-- Python substring containment, needle in hay: case-sensitive contiguous
containment. -/
def containsSub (needle : List Char) : List Char → Bool
  | [] => needle.isEmpty
  | c :: cs => startsList needle (c :: cs) || containsSub needle cs

/-- Python truthiness of an optional integer field: None and 0 are falsy. -/
def truthyOpt : Option Int → Bool
  | none => false
  | some n => n != 0

/-- Python truthiness of an optional string field: None and the empty string
are falsy. -/
def truthyStr : Option (List Char) → Bool
  | none => false
  | some s => !s.isEmpty

end Py

/-- External interactions issued by the supervisor, in program order. The
payload of the xdotool constructors is the Python value passed through str();
none models the Python None (the string None on the command line). -/
inductive Cmd where
  | spawn
  | windowminimize (w : Option Int)
  | windowmap (w : Option Int)
  | windowactivate (w : Option Int)
  | unmapWin (w : Option Int)
  | terminate
  | waitProc
  | kill
  | mainQuit
deriving DecidableEq

/-- Outcome of the terminate-and-wait sequence of on_quit, as determined by
the supervised process and the host: the wait returns within the timeout,
the wait raises TimeoutExpired, terminate itself raises, or the wait raises
something other than TimeoutExpired. -/
inductive TermB where
  | exits
  | timesOut
  | terminateRaises
  | waitRaises
deriving DecidableEq

/-- Third whitespace-separated field of a line; the claims call this the PID
field or the class field. -/
def thirdField (line : List Char) : Option (List Char) :=
  (Py.split none line).get? 2

/-- First whitespace-separated field of a line (defaulting to empty, used
only where a previous check guarantees presence). -/
def firstField (line : List Char) : List Char :=
  ((Py.split none line).get? 0).getD []

/-- Claim-side predicate, from the words of the claims: the third
whitespace-separated field is entirely decimal digits and numerically equals
the launched pid. -/
def pidFieldMatches (pid : Nat) (line : List Char) : Bool :=
  match thirdField line with
  | some f => Py.isdigit f && Py.decNat f == pid
  | none => false

/-- Claim-side resolution by pid, following the words of the claims: the
base-16-parsed first column of the first line whose third field numerically
equals the launched pid; absent when no line matches. -/
def specFindByPid (pid : Nat) (lines : List (List Char)) : Option Int :=
  match lines.find? (pidFieldMatches pid) with
  | some line => Py.int16 (firstField line)
  | none => none

/-- Claim-side predicate, from the words of the claims: the third
whitespace-separated field contains the matcher as a case-sensitive
substring. -/
def classFieldMatches (wm : List Char) (line : List Char) : Bool :=
  match thirdField line with
  | some f => Py.containsSub wm f
  | none => false

/-- Claim-side resolution by window class, following the words of the
claims. -/
def specFindByClass (wm : List Char) (lines : List (List Char)) : Option Int :=
  match lines.find? (classFieldMatches wm) with
  | some line => Py.int16 (firstField line)
  | none => none

/-- Result of a try block around a lookup: a raised exception inside it
(error) is caught, logged, and the function returns None. -/
def runCaught : Except Unit (Option Int) → Option Int
  | .ok r => r
  | .error _ => none

/-- Shared body of on_quit for one supervised process, from
tray_wrapper/main.py lines 153-164 (timeout 5), minimize_to_tray_wrapper
lines 166-175 (timeout 5) and multi_app_tray lines 170-181 (timeout 3): if
the process is alive, terminate is requested, then wait; TimeoutExpired
escalates to kill; any other exception is caught and logged. The numeric
timeout (3 or 5 seconds) is real time and appears here only through the
TermB outcome of the wait. -/
def quitApp (running : Bool) (b : TermB) : List Cmd :=
  if running then
    match b with
    | .exits => [.terminate, .waitProc]
    | .timesOut => [.terminate, .waitProc, .kill]
    | .terminateRaises => [.terminate]
    | .waitRaises => [.terminate, .waitProc]
  else []

namespace TrayWrapper

/-- Loop of find_window_by_pid (tray_wrapper/main.py lines 90-101, identical
in minimize_to_tray_wrapper/main.py lines 95-106): parts = line.split(None, 4);
a line with at least 3 parts whose parts[2] passes isdigit and equals the pid
yields int(parts[0], 16); the two nested source conditionals whose else
paths both fall through to the next line are rendered as one conjunction.
error models the ValueError of int when parts[0] is not valid base 16, which
aborts the whole scan. -/
def findByPidLoop (pid : Nat) : List (List Char) → Except Unit (Option Int)
  | [] => .ok none
  | line :: rest =>
    if 3 ≤ (Py.split (some 4) line).length ∧
        Py.isdigit (((Py.split (some 4) line).get? 2).getD []) = true ∧
        Py.decNat (((Py.split (some 4) line).get? 2).getD []) = pid then
      match Py.int16 (((Py.split (some 4) line).get? 0).getD []) with
      | some n => .ok (some n)
      | none => .error ()
    else findByPidLoop pid rest

/-- find_window_by_pid: the wmctrl -lp call either raises (error) or returns
lines; every exception inside the try block is caught and None returned. -/
def find_window_by_pid (pid : Nat) (tool : Except Unit (List (List Char))) :
    Option Int :=
  match tool with
  | .error _ => none
  | .ok lines => runCaught (findByPidLoop pid lines)

/-- Loop of find_window_by_class (tray_wrapper/main.py lines 103-114):
parts = line.split(None, 5); a line needs at least 4 parts and a parts[2]
containing wm_class as a substring. -/
def findByClassLoop (wm_class : List Char) : List (List Char) → Except Unit (Option Int)
  | [] => .ok none
  | line :: rest =>
    if 4 ≤ (Py.split (some 5) line).length ∧
        Py.containsSub wm_class (((Py.split (some 5) line).get? 2).getD []) = true then
      match Py.int16 (((Py.split (some 5) line).get? 0).getD []) with
      | some n => .ok (some n)
      | none => .error ()
    else findByClassLoop wm_class rest

/-- find_window_by_class: the wmctrl -lx call either raises (error) or
returns lines; every exception inside the try block is caught and None
returned. -/
def find_window_by_class (wm_class : List Char) (tool : Except Unit (List (List Char))) :
    Option Int :=
  match tool with
  | .error _ => none
  | .ok lines => runCaught (findByClassLoop wm_class lines)

/-- find_window (tray_wrapper/main.py lines 84-88): dispatch on the
truthiness of self.wm_class. The two tool arguments are the wmctrl -lp and
wmctrl -lx invocations. -/
def find_window (wm_class : Option (List Char)) (pid : Nat)
    (toolLp toolLx : Except Unit (List (List Char))) : Option Int :=
  if Py.truthyStr wm_class then find_window_by_class (wm_class.getD []) toolLx
  else find_window_by_pid pid toolLp

/-- Mutable fields of AppIndicatorWrapper that the claims mention. Process
liveness is an observation of the host (poll), so it enters each operation
as an oracle argument instead of being stored. -/
structure WState where
  first_launch : Bool
  window_id : Option Int
deriving DecidableEq

/-- minimize_window (tray_wrapper/main.py lines 116-134, identical in
minimize_to_tray_wrapper/main.py lines 108-127): guarded by the truthiness
of self.window_id; one xdotool windowminimize invocation, then the Xlib
unmap. minimizeRaises models the xdotool invocation raising (for example
FileNotFoundError for a missing binary); the surrounding except catches it,
so the unmap step is then skipped. unmap_window has its own try and never
raises; its possible internal failure does not change the trace of attempted
interactions. -/
def minimize_window (w : Option Int) (minimizeRaises : Bool) : List Cmd :=
  if Py.truthyOpt w then
    .windowminimize w :: (if minimizeRaises then [] else [.unmapWin w])
  else []

/-- launch_process (tray_wrapper/main.py lines 75-82): spawn, settle delay,
window lookup (r is the resolution result), auto-minimize only when
first_launch is still set and the looked-up id is truthy, then clear
first_launch. The last component records whether the auto-minimize ran. -/
def launch_process (s : WState) (r : Option Int) (mr : Bool) :
    WState × List Cmd × Bool :=
  (⟨false, r⟩,
   .spawn :: (if s.first_launch && Py.truthyOpt r then minimize_window r mr else []),
   s.first_launch && Py.truthyOpt r)

/-- on_show (tray_wrapper/main.py lines 139-147): relaunch when the process
is not running; otherwise map and activate a truthy window id. sr models the
windowmap invocation raising, caught by the handler, which skips the
windowactivate call. The last component records whether the auto-minimize of
a relaunch ran. -/
def on_show (running : Bool) (s : WState) (r : Option Int) (mr sr : Bool) :
    WState × List Cmd × Bool :=
  if !running then launch_process s r mr
  else if Py.truthyOpt s.window_id then
    (s, .windowmap s.window_id :: (if sr then [] else [.windowactivate s.window_id]), false)
  else (s, [], false)

/-- on_hide (tray_wrapper/main.py lines 149-151). -/
def on_hide (running : Bool) (s : WState) (mr : Bool) : WState × List Cmd :=
  if running && Py.truthyOpt s.window_id then (s, minimize_window s.window_id mr)
  else (s, [])

/-- on_quit (tray_wrapper/main.py lines 153-164): terminate-and-wait for the
one supervised process, then Gtk.main_quit, reached whether or not
termination erred. -/
def on_quit (running : Bool) (b : TermB) : List Cmd :=
  quitApp running b ++ [.mainQuit]

/-- One iteration of monitor_process (tray_wrapper/main.py lines 166-174,
identical in minimize_to_tray_wrapper/main.py lines 85-93 up to the sleep
interval). Input: per-tick observation of whether the process has exited.
Output: number of relaunches performed and whether Gtk.main_quit was
requested (which also ends the loop). -/
def monitor_process (persist : Bool) : List Bool → Nat × Bool
  | [] => (0, false)
  | exited :: rest =>
    if exited then
      if !persist then (0, true)
      else
        ((monitor_process persist rest).1 + 1, (monitor_process persist rest).2)
    else monitor_process persist rest

/-- Foreground or background operations that can touch the wrapper state
after startup, with their environment oracles. -/
inductive Op where
  | opShow (running : Bool) (r : Option Int) (mr sr : Bool)
  | opHide (running : Bool) (mr : Bool)
  | opTick (exited : Bool) (r : Option Int) (mr : Bool)

/-- One operation against the wrapper state: a menu callback or one monitor
iteration. The Bool records whether the auto-minimize of a launch ran. -/
def step (persist : Bool) (s : WState) : Op → WState × List Cmd × Bool
  | .opShow running r mr sr => on_show running s r mr sr
  | .opHide running mr => ((on_hide running s mr).1, (on_hide running s mr).2, false)
  | .opTick exited r mr =>
    if exited then
      if !persist then (s, [.mainQuit], false)
      else launch_process s r mr
    else (s, [], false)

/-- Auto-minimize flags along a run of operations. -/
def execAuto (persist : Bool) (s : WState) : List Op → List Bool
  | [] => []
  | o :: os => (step persist s o).2.2 :: execAuto persist (step persist s o).1 os

end TrayWrapper

namespace MultiAppTray

/-- Per-application entry of the multi-app variant: configuration plus the
runtime window id. The process handle is not stored because the code of the
claims never reads it except in on_quit, where liveness enters as an
oracle. -/
structure MApp where
  wm_class : List Char
  window_id : Option Int
deriving DecidableEq

/-- Loop of find_window_by_class (multi_app_tray/main.py lines 210-222):
parts = line.split(None, 5); a line needs at least 3 parts here (against 4
in the single-app variant). -/
def findByClassLoop (wm_class : List Char) : List (List Char) → Except Unit (Option Int)
  | [] => .ok none
  | line :: rest =>
    if 3 ≤ (Py.split (some 5) line).length ∧
        Py.containsSub wm_class (((Py.split (some 5) line).get? 2).getD []) = true then
      match Py.int16 (((Py.split (some 5) line).get? 0).getD []) with
      | some n => .ok (some n)
      | none => .error ()
    else findByClassLoop wm_class rest

/-- find_window_by_class of the multi-app variant. -/
def find_window_by_class (wm_class : List Char) (tool : Except Unit (List (List Char))) :
    Option Int :=
  match tool with
  | .error _ => none
  | .ok lines => runCaught (findByClassLoop wm_class lines)

/-- find_window (multi_app_tray/main.py lines 185-195): class lookup when
the configured wm_class is truthy, otherwise None directly; the PID branch
exists only as commented-out code. -/
def find_window (app : MApp) (tool : Except Unit (List (List Char))) : Option Int :=
  if !app.wm_class.isEmpty then find_window_by_class app.wm_class tool
  else none

/-- on_show_app (multi_app_tray/main.py lines 98-121). running is the
liveness of the supervised process at invocation time; the body never
consults it (the is_app_running guard is commented out). The key test
window_id in app is always true because __init__ seeds the key. mapOk and
actOk are the exit statuses of the two check=True xdotool calls; a false one
raises CalledProcessError after the attempt, caught by the handler, and the
body falls through to re-resolution: a truthy re-resolved id is mapped and
activated (check=False), otherwise launch_app runs. The xdotool binary is
taken as present here (a FileNotFoundError would propagate out of this
handler, unlike in the single-app variant). The last component records
whether launch_app ran. -/
def on_show_app (running : Bool) (app : MApp) (mapOk actOk : Bool)
    (tool : Except Unit (List (List Char))) : MApp × List Cmd × Bool :=
  if mapOk && actOk then
    (app, [.windowmap app.window_id, .windowactivate app.window_id], false)
  else
    ({ app with window_id := find_window app tool },
     (Cmd.windowmap app.window_id ::
        (if mapOk then [Cmd.windowactivate app.window_id] else [])) ++
       (if Py.truthyOpt (find_window app tool) then
          [Cmd.windowmap (find_window app tool),
           Cmd.windowactivate (find_window app tool)]
        else [Cmd.spawn]),
     !Py.truthyOpt (find_window app tool))

/-- on_hide_app (multi_app_tray/main.py lines 132-143). running is the
liveness of the supervised process at invocation time; the body never
consults it (the is_app_running guard is commented out). The window id is
re-resolved first; a truthy result is minimized and unmapped. -/
def on_hide_app (running : Bool) (app : MApp)
    (tool : Except Unit (List (List Char))) : MApp × List Cmd :=
  ({ app with window_id := find_window app tool },
   if Py.truthyOpt (find_window app tool) then
     [Cmd.windowminimize (find_window app tool), Cmd.unmapWin (find_window app tool)]
   else [])

/-- on_quit (multi_app_tray/main.py lines 166-183): terminate-and-wait per
configured application in order, then Gtk.main_quit. -/
def on_quit (apps : List (Bool × TermB)) : List Cmd :=
  (apps.map fun p => quitApp p.1 p.2).flatten ++ [.mainQuit]

end MultiAppTray

/-- Example listing line of the claims for PID lookup. -/
def exLinePid : List Char := "0x02400007  0 12345 host Calculator".data

/-- Example listing line of the claims for class lookup. -/
def exLineClass : List Char :=
  "0x02400007  0 gnome-calculator.Gnome-calculator host Calculator".data

/-- Example class matcher of the claims. -/
def exMatcher : List Char := "Gnome-calculator".data

namespace Py

/-- A split that is inside a token always yields at least one element. -/
theorem splitGo_pos (s : List Char) : ∀ a, 1 ≤ (splitGo none (some a) s).length := by
  induction s with
  | nil => intro a; simp [splitGo]
  | cons c cs ih =>
    intro a
    by_cases hsp : isSpace c
    · simp [splitGo, hsp]
    · simpa [splitGo, hsp] using ih (c :: a)

/-- Length of a budgeted split against the unlimited split: the budget caps
the element count at budget + 1 and changes nothing else. Stated for the
reachable accumulator states. -/
theorem splitGo_len (s : List Char) :
    (∀ k, (splitGo (some k) none s).length = min ((splitGo none none s).length) (k + 1)) ∧
    (∀ k a, (splitGo (some (k + 1)) (some a) s).length
      = min ((splitGo none (some a) s).length) (k + 2)) := by
  induction s with
  | nil =>
    constructor
    · intro k; simp [splitGo]
    · intro k a; simp [splitGo]
  | cons c cs ih =>
    obtain ⟨ihP, ihQ⟩ := ih
    constructor
    · intro k
      by_cases hsp : isSpace c
      · simpa [splitGo, hsp] using ihP k
      · cases k with
        | zero =>
          have h1 := splitGo_pos cs [c]
          simp [splitGo, hsp]
          omega
        | succ k =>
          simpa [splitGo, hsp] using ihQ k [c]
    · intro k a
      by_cases hsp : isSpace c
      · have h := ihP k
        simp [splitGo, hsp, budgetDec]
        omega
      · simpa [splitGo, hsp] using ihQ k (c :: a)

/-- Elements strictly below the budget agree between the budgeted and the
unlimited split. -/
theorem splitGo_get (s : List Char) :
    (∀ k i, i < k → (splitGo (some k) none s).get? i = (splitGo none none s).get? i) ∧
    (∀ k a i, i < k + 1 →
      (splitGo (some (k + 1)) (some a) s).get? i = (splitGo none (some a) s).get? i) := by
  induction s with
  | nil =>
    constructor
    · intro k i _; rfl
    · intro k a i _; rfl
  | cons c cs ih =>
    obtain ⟨ihP, ihQ⟩ := ih
    constructor
    · intro k i hik
      by_cases hsp : isSpace c
      · simpa [splitGo, hsp] using ihP k i hik
      · cases k with
        | zero => omega
        | succ k =>
          simpa [splitGo, hsp] using ihQ k [c] i hik
    · intro k a i hik
      by_cases hsp : isSpace c
      · cases i with
        | zero => simp [splitGo, hsp, budgetDec]
        | succ j =>
          have hj : j < k := by omega
          simp only [splitGo, hsp, if_true, budgetDec, List.get?_cons_succ]
          · exact ihP k j hj
      · simpa [splitGo, hsp] using ihQ k (c :: a) i hik

/-- line.split(None, k) has min(full length, k + 1) elements. -/
theorem split_len (k : Nat) (s : List Char) :
    (split (some k) s).length = min ((split none s).length) (k + 1) :=
  (splitGo_len s).1 k

/-- Fields with index below the maxsplit agree with the fields of the
unlimited split. -/
theorem split_get (k i : Nat) (h : i < k) (s : List Char) :
    (split (some k) s).get? i = (split none s).get? i :=
  (splitGo_get s).1 k i h

end Py

/-- The loop condition of find_window_by_pid coincides with the claim-side
predicate on the third whitespace-separated field. -/
theorem pidCond_bridge (pid : Nat) (line : List Char) :
    (3 ≤ (Py.split (some 4) line).length ∧
      Py.isdigit (((Py.split (some 4) line).get? 2).getD []) = true ∧
      Py.decNat (((Py.split (some 4) line).get? 2).getD []) = pid)
    ↔ pidFieldMatches pid line = true := by
  have hlen := Py.split_len 4 line
  have hget := Py.split_get 4 2 (by omega) line
  simp only [pidFieldMatches, thirdField]
  rw [hget]
  cases hF : (Py.split none line).get? 2 with
  | none =>
    have h2 : (Py.split none line).length ≤ 2 := List.get?_eq_none.mp hF
    constructor
    · rintro ⟨h3, -, -⟩; omega
    · intro h; simp at h
  | some f =>
    have h3 : 2 < (Py.split none line).length := by
      by_contra hc
      rw [List.get?_eq_none.mpr (by omega)] at hF
      cases hF
    simp only [Option.getD_some, Bool.and_eq_true, beq_iff_eq]
    constructor
    · rintro ⟨-, hd, he⟩; exact ⟨hd, he⟩
    · rintro ⟨hd, he⟩; exact ⟨by omega, hd, he⟩

/-- The loop condition of the multi-app find_window_by_class coincides with
the claim-side predicate, with no side condition: needing 3 fields is the
same as having a third field. -/
theorem classCondMulti_bridge (wm line : List Char) :
    (3 ≤ (Py.split (some 5) line).length ∧
      Py.containsSub wm (((Py.split (some 5) line).get? 2).getD []) = true)
    ↔ classFieldMatches wm line = true := by
  have hlen := Py.split_len 5 line
  have hget := Py.split_get 5 2 (by omega) line
  simp only [classFieldMatches, thirdField]
  rw [hget]
  cases hF : (Py.split none line).get? 2 with
  | none =>
    have h2 : (Py.split none line).length ≤ 2 := List.get?_eq_none.mp hF
    constructor
    · rintro ⟨h3, -⟩; omega
    · intro h; simp at h
  | some f =>
    have h3 : 2 < (Py.split none line).length := by
      by_contra hc
      rw [List.get?_eq_none.mpr (by omega)] at hF
      cases hF
    simp only [Option.getD_some]
    constructor
    · rintro ⟨-, hc⟩; exact hc
    · intro hc; exact ⟨by omega, hc⟩

/-- On a line with at least 4 whitespace-separated fields (the shape the
listing tool always produces), the loop condition of the single-app
find_window_by_class coincides with the claim-side predicate. -/
theorem classCondSingle_bridge (wm line : List Char)
    (hwf : 4 ≤ (Py.split none line).length) :
    (4 ≤ (Py.split (some 5) line).length ∧
      Py.containsSub wm (((Py.split (some 5) line).get? 2).getD []) = true)
    ↔ classFieldMatches wm line = true := by
  have hlen := Py.split_len 5 line
  have hget := Py.split_get 5 2 (by omega) line
  simp only [classFieldMatches, thirdField]
  rw [hget]
  cases hF : (Py.split none line).get? 2 with
  | none =>
    have h2 : (Py.split none line).length ≤ 2 := List.get?_eq_none.mp hF
    omega
  | some f =>
    simp only [Option.getD_some]
    constructor
    · rintro ⟨-, hc⟩; exact hc
    · intro hc; exact ⟨by omega, hc⟩

/-- The try-wrapped scan of find_window_by_pid computes exactly the
claim-side first-PID-match resolution, on every input text. -/
theorem findByPidLoop_spec (pid : Nat) :
    ∀ lines, runCaught (TrayWrapper.findByPidLoop pid lines) = specFindByPid pid lines := by
  intro lines
  induction lines with
  | nil => rfl
  | cons line rest ih =>
    by_cases hm : pidFieldMatches pid line = true
    · rw [TrayWrapper.findByPidLoop, if_pos ((pidCond_bridge pid line).mpr hm)]
      rw [specFindByPid, List.find?_cons_of_pos _ hm]
      have hget0 := Py.split_get 4 0 (by omega) line
      rw [hget0]
      simp only [firstField]
      cases hI : Py.int16 (((Py.split none line).get? 0).getD []) with
      | some n => simp [runCaught]
      | none => simp [runCaught]
    · rw [TrayWrapper.findByPidLoop, if_neg (fun hc => hm ((pidCond_bridge pid line).mp hc))]
      rw [ih]
      unfold specFindByPid
      rw [List.find?_cons_of_neg _ hm]

/-- The try-wrapped scan of the multi-app find_window_by_class computes
exactly the claim-side first-class-match resolution, on every input text. -/
theorem findByClassLoopMulti_spec (wm : List Char) :
    ∀ lines, runCaught (MultiAppTray.findByClassLoop wm lines) = specFindByClass wm lines := by
  intro lines
  induction lines with
  | nil => rfl
  | cons line rest ih =>
    by_cases hm : classFieldMatches wm line = true
    · rw [MultiAppTray.findByClassLoop, if_pos ((classCondMulti_bridge wm line).mpr hm)]
      rw [specFindByClass, List.find?_cons_of_pos _ hm]
      have hget0 := Py.split_get 5 0 (by omega) line
      rw [hget0]
      simp only [firstField]
      cases hI : Py.int16 (((Py.split none line).get? 0).getD []) with
      | some n => simp [runCaught]
      | none => simp [runCaught]
    · rw [MultiAppTray.findByClassLoop,
        if_neg (fun hc => hm ((classCondMulti_bridge wm line).mp hc))]
      rw [ih]
      unfold specFindByClass
      rw [List.find?_cons_of_neg _ hm]

/-- On listing output whose lines all have at least 4 whitespace-separated
fields, the try-wrapped scan of the single-app find_window_by_class computes
exactly the claim-side first-class-match resolution. -/
theorem findByClassLoopSingle_spec (wm : List Char) :
    ∀ lines, (∀ l ∈ lines, 4 ≤ (Py.split none l).length) →
      runCaught (TrayWrapper.findByClassLoop wm lines) = specFindByClass wm lines := by
  intro lines
  induction lines with
  | nil => intro _; rfl
  | cons line rest ih =>
    intro hwf
    have hline : 4 ≤ (Py.split none line).length := hwf line (List.mem_cons_self line rest)
    have hrest : ∀ l ∈ rest, 4 ≤ (Py.split none l).length :=
      fun l hl => hwf l (List.mem_cons_of_mem line hl)
    by_cases hm : classFieldMatches wm line = true
    · rw [TrayWrapper.findByClassLoop, if_pos ((classCondSingle_bridge wm line hline).mpr hm)]
      rw [specFindByClass, List.find?_cons_of_pos _ hm]
      have hget0 := Py.split_get 5 0 (by omega) line
      rw [hget0]
      simp only [firstField]
      cases hI : Py.int16 (((Py.split none line).get? 0).getD []) with
      | some n => simp [runCaught]
      | none => simp [runCaught]
    · rw [TrayWrapper.findByClassLoop,
        if_neg (fun hc => hm ((classCondSingle_bridge wm line hline).mp hc))]
      rw [ih hrest]
      unfold specFindByClass
      rw [List.find?_cons_of_neg _ hm]

/-- After a state whose first_launch flag is cleared, no operation ever sets
the auto-minimize flag, and first_launch stays cleared. -/
theorem step_no_auto (persist : Bool) (s : TrayWrapper.WState) (o : TrayWrapper.Op)
    (h : s.first_launch = false) :
    (TrayWrapper.step persist s o).1.first_launch = false ∧
      (TrayWrapper.step persist s o).2.2 = false := by
  cases o with
  | opShow running r mr sr =>
    cases running with
    | false => simp [TrayWrapper.step, TrayWrapper.on_show, TrayWrapper.launch_process, h]
    | true =>
      by_cases ht : Py.truthyOpt s.window_id = true
      · simp [TrayWrapper.step, TrayWrapper.on_show, ht, h]
      · simp [TrayWrapper.step, TrayWrapper.on_show, ht, h]
  | opHide running mr =>
    refine ⟨?_, rfl⟩
    simp only [TrayWrapper.step, TrayWrapper.on_hide]
    split
    · exact h
    · exact h
  | opTick exited r mr =>
    cases exited with
    | false => simp [TrayWrapper.step, h]
    | true =>
      cases persist with
      | false => simp [TrayWrapper.step, h]
      | true => simp [TrayWrapper.step, TrayWrapper.launch_process, h]

/-- From a state whose first_launch flag is cleared, every auto-minimize
flag along every run of operations is false. -/
theorem execAuto_all_false (persist : Bool) :
    ∀ (ops : List TrayWrapper.Op) (s : TrayWrapper.WState), s.first_launch = false →
      TrayWrapper.execAuto persist s ops = List.replicate ops.length false := by
  intro ops
  induction ops with
  | nil => intro s _; rfl
  | cons o os ih =>
    intro s h
    have hs := step_no_auto persist s o h
    rw [TrayWrapper.execAuto, hs.2, ih _ hs.1]
    rfl

/-- A kill appears in the per-process quit trace exactly for an alive
process whose wait raised TimeoutExpired. -/
theorem quitApp_kill (running : Bool) (b : TermB) :
    Cmd.kill ∈ quitApp running b ↔ (running = true ∧ b = TermB.timesOut) := by
  cases running <;> cases b <;> decide

/-- C1: as stated, the claim holds for the single-app variants but fails on
the multi-app variant, whose resolution never scans by PID (the branch is
commented out) and returns absent whenever no class matcher is configured.
Amended parts proved here: with a falsy (absent or empty) class matcher, the
single-app resolution equals the claim-side first-PID-match lookup on every
listing text; the example line with PID 12345 yields handle 37748743; an
all-mismatch text scans to absent; and the multi-app resolution with no
matcher returns absent directly. -/
theorem C1_pid_resolution :
    (∀ (wm : Option (List Char)) (pid : Nat) (lines : List (List Char))
        (toolLx : Except Unit (List (List Char))),
        Py.truthyStr wm = false →
        TrayWrapper.find_window wm pid (.ok lines) toolLx = specFindByPid pid lines) ∧
    TrayWrapper.find_window none 12345 (.ok [exLinePid]) (.ok []) = some 37748743 ∧
    (∀ (pid : Nat) (lines : List (List Char)),
        lines.all (fun l => !pidFieldMatches pid l) = true →
        runCaught (TrayWrapper.findByPidLoop pid lines) = none) ∧
    (∀ (app : MultiAppTray.MApp) (tool : Except Unit (List (List Char))),
        app.wm_class = [] → MultiAppTray.find_window app tool = none) := by
  refine ⟨?_, by decide, ?_, ?_⟩
  · intro wm pid lines toolLx hwm
    simp only [TrayWrapper.find_window, hwm, Bool.false_eq_true, if_false,
      TrayWrapper.find_window_by_pid]
    exact findByPidLoop_spec pid lines
  · intro pid lines hall
    have h2 : ∀ l ∈ lines, ¬ pidFieldMatches pid l = true := by
      intro l hl
      have := (List.all_eq_true.mp hall) l hl
      simp at this
      simp [this]
    rw [findByPidLoop_spec]
    unfold specFindByPid
    rw [List.find?_eq_none.mpr h2]
  · intro app tool h
    simp [MultiAppTray.find_window, h]

/-- C1 witness: the amended statement applied at a concrete empty matcher
with the example line, and the multi-app absent case at a concrete entry. -/
theorem C1_pid_resolution_witness :
    TrayWrapper.find_window (some []) 12345 (.ok [exLinePid]) (.ok [])
      = specFindByPid 12345 [exLinePid] ∧
    MultiAppTray.find_window ⟨[], some 5⟩ (.ok [exLinePid]) = none :=
  ⟨C1_pid_resolution.1 (some []) 12345 [exLinePid] (.ok []) (by decide),
   C1_pid_resolution.2.2.2 ⟨[], some 5⟩ (.ok [exLinePid]) rfl⟩

/-- C1 counterexample: the claim as stated predicts that with no matcher
configured the resolution of the multi-app variant returns the handle of the
first PID-matching line; on the example line with launched PID 12345 the
multi-app code returns absent instead. -/
theorem C1_pid_resolution_cex :
    ¬ (MultiAppTray.find_window ⟨[], none⟩ (.ok [exLinePid])
        = specFindByPid 12345 [exLinePid]) := by
  decide

/-- C2: with a class matcher configured, resolution returns the
base-16-parsed first column of the first line whose class field (third
whitespace-separated field) contains the matcher as a case-sensitive
substring, in listing order. For the single-app variant this is proved for
listing output whose lines all have at least 4 whitespace-separated fields
(the shape every wmctrl -lx line has); for the multi-app variant it holds
for every text. The example matcher Gnome-calculator against the example
line yields handle 37748743 in both variants. -/
theorem C2_class_resolution :
    (∀ (wm : List Char) (pid : Nat) (toolLp : Except Unit (List (List Char)))
        (lines : List (List Char)),
        wm ≠ [] →
        (∀ l ∈ lines, 4 ≤ (Py.split none l).length) →
        TrayWrapper.find_window (some wm) pid toolLp (.ok lines)
          = specFindByClass wm lines) ∧
    (∀ (wm : List Char) (lines : List (List Char)),
        MultiAppTray.find_window_by_class wm (.ok lines) = specFindByClass wm lines) ∧
    (∀ (app : MultiAppTray.MApp) (tool : Except Unit (List (List Char))),
        app.wm_class ≠ [] →
        MultiAppTray.find_window app tool
          = MultiAppTray.find_window_by_class app.wm_class tool) ∧
    TrayWrapper.find_window (some exMatcher) 0 (.ok []) (.ok [exLineClass])
      = some 37748743 ∧
    MultiAppTray.find_window ⟨exMatcher, none⟩ (.ok [exLineClass]) = some 37748743 := by
  refine ⟨?_, ?_, ?_, by decide, by decide⟩
  · intro wm pid toolLp lines hwm hwf
    have hne : wm.isEmpty = false := by
      cases wm with
      | nil => exact absurd rfl hwm
      | cons a as => rfl
    simp only [TrayWrapper.find_window, Py.truthyStr, hne, Bool.not_false, if_true,
      Option.getD_some, TrayWrapper.find_window_by_class]
    exact findByClassLoopSingle_spec wm lines hwf
  · intro wm lines
    simp only [MultiAppTray.find_window_by_class]
    exact findByClassLoopMulti_spec wm lines
  · intro app tool h
    have hne : app.wm_class.isEmpty = false := by
      cases happ : app.wm_class with
      | nil => exact absurd happ h
      | cons a as => rfl
    simp [MultiAppTray.find_window, hne]

/-- C2 witness: the single-app statement applied at the example matcher and
example line, with both hypotheses discharged concretely. -/
theorem C2_class_resolution_witness :
    TrayWrapper.find_window (some exMatcher) 0 (.ok []) (.ok [exLineClass])
      = specFindByClass exMatcher [exLineClass] :=
  C2_class_resolution.1 exMatcher 0 (.ok []) [exLineClass] (by decide) (by decide)

/-- C3: every failure of the listing invocation (modelled as the call
raising) and every exception raised inside the scan (a first matching line
whose first column is not valid base 16) is caught: resolution returns
absent, in all three lookup functions, and nothing propagates. -/
theorem C3_tool_failure_absent :
    (∀ pid : Nat, TrayWrapper.find_window_by_pid pid (.error ()) = none) ∧
    (∀ wm : List Char, TrayWrapper.find_window_by_class wm (.error ()) = none) ∧
    (∀ wm : List Char, MultiAppTray.find_window_by_class wm (.error ()) = none) ∧
    (∀ (pid : Nat) (lines : List (List Char)),
        TrayWrapper.findByPidLoop pid lines = .error () →
        TrayWrapper.find_window_by_pid pid (.ok lines) = none) ∧
    (∀ (wm : List Char) (lines : List (List Char)),
        TrayWrapper.findByClassLoop wm lines = .error () →
        TrayWrapper.find_window_by_class wm (.ok lines) = none) ∧
    (∀ (wm : List Char) (lines : List (List Char)),
        MultiAppTray.findByClassLoop wm lines = .error () →
        MultiAppTray.find_window_by_class wm (.ok lines) = none) := by
  refine ⟨fun _ => rfl, fun _ => rfl, fun _ => rfl, ?_, ?_, ?_⟩
  · intro pid lines h
    simp [TrayWrapper.find_window_by_pid, h, runCaught]
  · intro wm lines h
    simp [TrayWrapper.find_window_by_class, h, runCaught]
  · intro wm lines h
    simp [MultiAppTray.find_window_by_class, h, runCaught]

/-- C3 witness: a scan whose matched line has a first column that is not
valid base 16 raises inside the try block and resolves to absent. -/
theorem C3_tool_failure_absent_witness :
    TrayWrapper.find_window_by_pid 99 (.ok ["zzz 0 99".data]) = none :=
  C3_tool_failure_absent.2.2.2.1 99 ["zzz 0 99".data] rfl

/-- C4: whenever the quit trace of an alive process is nonempty it starts
with the graceful terminate request; a force-kill appears exactly when the
wait raised TimeoutExpired; and in both variants the event loop is asked to
terminate as the final action, after every supervised application is
handled, whatever the termination outcomes were. -/
theorem C4_quit_terminate_policy :
    (∀ (running : Bool) (b : TermB),
        quitApp running b ≠ [] → (quitApp running b).head? = some Cmd.terminate) ∧
    (∀ b : TermB, Cmd.kill ∈ quitApp true b ↔ b = TermB.timesOut) ∧
    (∀ (running : Bool) (b : TermB),
        Cmd.kill ∈ quitApp running b → running = true ∧ b = TermB.timesOut) ∧
    (∀ (running : Bool) (b : TermB),
        (TrayWrapper.on_quit running b).getLast? = some Cmd.mainQuit) ∧
    (∀ apps : List (Bool × TermB),
        (MultiAppTray.on_quit apps).getLast? = some Cmd.mainQuit) ∧
    (∀ apps : List (Bool × TermB),
        Cmd.kill ∈ MultiAppTray.on_quit apps ↔
          ∃ p ∈ apps, p.1 = true ∧ p.2 = TermB.timesOut) := by
  refine ⟨?_, ?_, ?_, ?_, ?_, ?_⟩
  · intro running b
    cases running <;> cases b <;> decide
  · intro b
    rw [quitApp_kill]
    simp
  · intro running b h
    exact (quitApp_kill running b).mp h
  · intro running b
    exact List.getLast?_concat _
  · intro apps
    exact List.getLast?_concat _
  · intro apps
    unfold MultiAppTray.on_quit
    constructor
    · intro h
      rcases List.mem_append.mp h with h | h
      · rcases List.mem_flatten.mp h with ⟨l, hl, hkl⟩
        rcases List.mem_map.mp hl with ⟨p, hp, rfl⟩
        exact ⟨p, hp, (quitApp_kill p.1 p.2).mp hkl⟩
      · simp at h
    · rintro ⟨p, hp, hr, hb⟩
      refine List.mem_append.mpr (Or.inl ?_)
      refine List.mem_flatten.mpr ⟨quitApp p.1 p.2, List.mem_map.mpr ⟨p, hp, rfl⟩, ?_⟩
      exact (quitApp_kill p.1 p.2).mpr ⟨hr, hb⟩

/-- C4 witness: an alive process whose wait timed out has a trace starting
with terminate and containing kill; the multi-app kill criterion applied to
a concrete two-application list. -/
theorem C4_quit_terminate_policy_witness :
    (quitApp true TermB.timesOut).head? = some Cmd.terminate ∧
    (Cmd.kill ∈ quitApp true TermB.timesOut) ∧
    Cmd.kill ∈ MultiAppTray.on_quit [(true, TermB.exits), (true, TermB.timesOut)] :=
  ⟨C4_quit_terminate_policy.1 true TermB.timesOut (by decide),
   (C4_quit_terminate_policy.2.1 TermB.timesOut).mpr rfl,
   (C4_quit_terminate_policy.2.2.2.2.2 [(true, TermB.exits), (true, TermB.timesOut)]).mpr
     ⟨(true, TermB.timesOut), by decide, rfl, rfl⟩⟩

/-- C5: with persist-on-exit set, the poll loop relaunches once per observed
exit and never asks the event loop to terminate (in particular N consecutive
observed exits give exactly N relaunches and the wrapper keeps running);
with it unset, the first observed exit requests event-loop termination and
ends the loop with no relaunch, and a run with no observed exit requests
nothing. -/
theorem C5_monitor_relaunch_policy :
    (∀ obs : List Bool,
        TrayWrapper.monitor_process true obs = (obs.count true, false)) ∧
    (∀ n : Nat,
        TrayWrapper.monitor_process true (List.replicate n true) = (n, false)) ∧
    (∀ obs : List Bool,
        TrayWrapper.monitor_process false obs = (0, obs.any (fun b => b))) := by
  refine ⟨?_, ?_, ?_⟩
  · intro obs
    induction obs with
    | nil => rfl
    | cons e rest ih =>
      cases e with
      | true => simp [TrayWrapper.monitor_process, ih, List.count_cons]
      | false => simp [TrayWrapper.monitor_process, ih, List.count_cons]
  · intro n
    induction n with
    | zero => rfl
    | succ n ih => simp [List.replicate_succ, TrayWrapper.monitor_process, ih]
  · intro obs
    induction obs with
    | nil => rfl
    | cons e rest ih =>
      cases e with
      | true => simp [TrayWrapper.monitor_process]
      | false => simp [TrayWrapper.monitor_process, ih]

/-- C6: along every run of the single-app wrapper, the automatic minimize of
launch_process runs on the very first launch exactly when the resolved
window id is truthy, and on no later operation whatever the run does (menu
show on a dead process relaunching, persist-on-exit ticks relaunching, hides,
non-exit ticks), because first_launch is cleared by the first launch and
never set again. -/
theorem C6_auto_minimize_first_launch_only (persist : Bool) (r0 : Option Int)
    (mr0 : Bool) (ops : List TrayWrapper.Op) :
    (TrayWrapper.launch_process ⟨true, none⟩ r0 mr0).2.2 = Py.truthyOpt r0 ∧
    TrayWrapper.execAuto persist (TrayWrapper.launch_process ⟨true, none⟩ r0 mr0).1 ops
      = List.replicate ops.length false := by
  constructor
  · simp [TrayWrapper.launch_process]
  · exact execAuto_all_false persist ops _ rfl

/-- C7: as stated, the claim fails twice: the multi-app show never checks
liveness (it can issue commands and even launch with the process alive and
no handle known), and in the single-app variants a raising windowmap
invocation skips the windowactivate call. Amended statement proved here.
Single-app: a dead process is relaunched via launch_process; an alive
process with a truthy handle gets windowmap then windowactivate (the
activate being skipped exactly when the map invocation raised); an alive
process with no truthy handle causes no command and no state change.
Multi-app: the behavior is independent of liveness; when both strict calls
succeed the cached handle is mapped and activated with no launch; launch_app
runs exactly when the strict calls did not both succeed and re-resolution
yields no truthy handle. -/
theorem C7_show_behavior :
    (∀ (s : TrayWrapper.WState) (r : Option Int) (mr sr : Bool),
        TrayWrapper.on_show false s r mr sr = TrayWrapper.launch_process s r mr) ∧
    (∀ (s : TrayWrapper.WState) (r : Option Int) (mr : Bool),
        Py.truthyOpt s.window_id = true →
        TrayWrapper.on_show true s r mr false
          = (s, [Cmd.windowmap s.window_id, Cmd.windowactivate s.window_id], false)) ∧
    (∀ (s : TrayWrapper.WState) (r : Option Int) (mr : Bool),
        Py.truthyOpt s.window_id = true →
        TrayWrapper.on_show true s r mr true = (s, [Cmd.windowmap s.window_id], false)) ∧
    (∀ (s : TrayWrapper.WState) (r : Option Int) (mr sr : Bool),
        Py.truthyOpt s.window_id = false →
        TrayWrapper.on_show true s r mr sr = (s, [], false)) ∧
    (∀ (running : Bool) (app : MultiAppTray.MApp) (mapOk actOk : Bool)
        (tool : Except Unit (List (List Char))),
        MultiAppTray.on_show_app running app mapOk actOk tool
          = MultiAppTray.on_show_app true app mapOk actOk tool) ∧
    (∀ (running : Bool) (app : MultiAppTray.MApp)
        (tool : Except Unit (List (List Char))),
        MultiAppTray.on_show_app running app true true tool
          = (app, [Cmd.windowmap app.window_id, Cmd.windowactivate app.window_id],
             false)) ∧
    (∀ (running : Bool) (app : MultiAppTray.MApp) (mapOk actOk : Bool)
        (tool : Except Unit (List (List Char))),
        (MultiAppTray.on_show_app running app mapOk actOk tool).2.2 = true ↔
          ((mapOk && actOk) = false ∧
            Py.truthyOpt (MultiAppTray.find_window app tool) = false)) := by
  refine ⟨?_, ?_, ?_, ?_, ?_, ?_, ?_⟩
  · intro s r mr sr
    simp [TrayWrapper.on_show]
  · intro s r mr h
    simp [TrayWrapper.on_show, h]
  · intro s r mr h
    simp [TrayWrapper.on_show, h]
  · intro s r mr sr h
    simp [TrayWrapper.on_show, h]
  · intro running app mapOk actOk tool
    rfl
  · intro running app tool
    rfl
  · intro running app mapOk actOk tool
    by_cases h : (mapOk && actOk) = true
    · simp [MultiAppTray.on_show_app, h]
    · have h2 : (mapOk && actOk) = false := by
        revert h; cases (mapOk && actOk) <;> simp
      by_cases ht : Py.truthyOpt (MultiAppTray.find_window app tool) = true
      · simp [MultiAppTray.on_show_app, h2, ht]
      · have ht2 : Py.truthyOpt (MultiAppTray.find_window app tool) = false := by
          revert ht; cases Py.truthyOpt (MultiAppTray.find_window app tool) <;> simp
        simp [MultiAppTray.on_show_app, h2, ht2]

/-- C7 witness: the amended single-app map-then-activate case applied at a
concrete alive state with handle 3. -/
theorem C7_show_behavior_witness :
    TrayWrapper.on_show true ⟨false, some 3⟩ none false false
      = (⟨false, some 3⟩, [Cmd.windowmap (some 3), Cmd.windowactivate (some 3)],
         false) :=
  C7_show_behavior.2.1 ⟨false, some 3⟩ none false (by decide)

/-- C7 counterexample: with the process alive and no handle known, the
multi-app show still issues external commands and launches (the claim says
it issues nothing and changes nothing); and in the single-app variant a
raising windowmap is not followed by windowactivate (the claim says map then
activate). -/
theorem C7_show_behavior_cex :
    (¬ ((MultiAppTray.on_show_app true ⟨[], none⟩ false false (.ok [])).2.1 = [] ∧
        (MultiAppTray.on_show_app true ⟨[], none⟩ false false (.ok [])).2.2 = false)) ∧
    ¬ ((TrayWrapper.on_show true ⟨false, some 1⟩ none false true).2.1
        = [Cmd.windowmap (some 1), Cmd.windowactivate (some 1)]) := by
  decide

/-- C8: as stated, the claim fails on the multi-app variant, which never
checks liveness: hide minimizes whenever re-resolution finds a truthy
handle, also for a dead process. Amended statement proved here. Single-app:
alive with truthy handle invokes the minimize operation (its trace starting
with the windowminimize command); any other case is a no-op. Multi-app: the
behavior is independent of liveness; hide re-resolves and minimizes exactly
when the re-resolved handle is truthy. -/
theorem C8_hide_behavior :
    (∀ (s : TrayWrapper.WState) (mr : Bool),
        Py.truthyOpt s.window_id = true →
        TrayWrapper.on_hide true s mr = (s, TrayWrapper.minimize_window s.window_id mr) ∧
        (TrayWrapper.on_hide true s mr).2.head? = some (Cmd.windowminimize s.window_id)) ∧
    (∀ (s : TrayWrapper.WState) (mr : Bool),
        Py.truthyOpt s.window_id = false → TrayWrapper.on_hide true s mr = (s, [])) ∧
    (∀ (s : TrayWrapper.WState) (mr : Bool), TrayWrapper.on_hide false s mr = (s, [])) ∧
    (∀ (running : Bool) (app : MultiAppTray.MApp) (tool : Except Unit (List (List Char))),
        MultiAppTray.on_hide_app running app tool = MultiAppTray.on_hide_app true app tool) ∧
    (∀ (running : Bool) (app : MultiAppTray.MApp) (tool : Except Unit (List (List Char))),
        Py.truthyOpt (MultiAppTray.find_window app tool) = true →
        (MultiAppTray.on_hide_app running app tool).2.head?
          = some (Cmd.windowminimize (MultiAppTray.find_window app tool))) ∧
    (∀ (running : Bool) (app : MultiAppTray.MApp) (tool : Except Unit (List (List Char))),
        Py.truthyOpt (MultiAppTray.find_window app tool) = false →
        (MultiAppTray.on_hide_app running app tool).2 = []) := by
  refine ⟨?_, ?_, ?_, ?_, ?_, ?_⟩
  · intro s mr h
    constructor
    · simp [TrayWrapper.on_hide, h]
    · simp [TrayWrapper.on_hide, TrayWrapper.minimize_window, h]
  · intro s mr h
    simp [TrayWrapper.on_hide, h]
  · intro s mr
    simp [TrayWrapper.on_hide]
  · intro running app tool
    rfl
  · intro running app tool h
    simp [MultiAppTray.on_hide_app, h]
  · intro running app tool h
    simp [MultiAppTray.on_hide_app, h]

/-- C8 witness: the single-app minimize case applied at a concrete alive
state with handle 4. -/
theorem C8_hide_behavior_witness :
    TrayWrapper.on_hide true ⟨false, some 4⟩ false
      = (⟨false, some 4⟩, TrayWrapper.minimize_window (some 4) false) :=
  (C8_hide_behavior.1 ⟨false, some 4⟩ false (by decide)).1

/-- C8 counterexample: the supervised process is dead, yet the multi-app
hide re-resolves the example listing, finds the example window and issues
minimize commands; the claim says hide is a no-op when the process is
dead. -/
theorem C8_hide_behavior_cex :
    ¬ ((MultiAppTray.on_hide_app false ⟨exMatcher, none⟩ (.ok [exLineClass])).2 = []) := by
  decide

/-- C9: as stated, the claim fails when the windowminimize invocation itself
raises (a missing xdotool binary): the surrounding handler catches and logs
it and the unmap call is skipped, so only one command is attempted. Amended
statement proved here: with no truthy handle, no command is issued (and the
function touches no supervisor state); with a truthy handle, the
windowminimize command is issued and the unmap call follows exactly when
that invocation did not raise, failures being logged and never
propagated. -/
theorem C9_minimize_commands :
    (∀ w : Option Int, Py.truthyOpt w = false →
        TrayWrapper.minimize_window w false = [] ∧
        TrayWrapper.minimize_window w true = []) ∧
    (∀ w : Option Int, Py.truthyOpt w = true →
        TrayWrapper.minimize_window w false = [Cmd.windowminimize w, Cmd.unmapWin w]) ∧
    (∀ w : Option Int, Py.truthyOpt w = true →
        TrayWrapper.minimize_window w true = [Cmd.windowminimize w]) := by
  refine ⟨?_, ?_, ?_⟩
  · intro w h
    constructor <;> simp [TrayWrapper.minimize_window, h]
  · intro w h
    simp [TrayWrapper.minimize_window, h]
  · intro w h
    simp [TrayWrapper.minimize_window, h]

/-- C9 witness: the non-raising case applied at the concrete handle 2 gives
the minimize command followed by the unmap call. -/
theorem C9_minimize_commands_witness :
    TrayWrapper.minimize_window (some 2) false
      = [Cmd.windowminimize (some 2), Cmd.unmapWin (some 2)] :=
  C9_minimize_commands.2.1 (some 2) (by decide)

/-- C9 counterexample: with handle 1 known and the windowminimize invocation
raising, exactly one command is attempted, not the two the claim states. -/
theorem C9_minimize_commands_cex :
    ¬ ((TrayWrapper.minimize_window (some 1) true).length = 2) := by
  decide

/-- C10: line handling in the scans is total and silently skips ill-formed
lines, the scan continuing with the next line: in PID matching a line with
fewer than 3 whitespace-separated fields, or one whose third field is not
entirely decimal digits, is skipped without comparison or raising; in class
matching a line with fewer than 4 fields is skipped by the single-app
variant but only one with fewer than 3 fields by the multi-app variant,
which does process a matching 3-field line. -/
theorem C10_line_skipping :
    (∀ (pid : Nat) (l : List Char) (rest : List (List Char)),
        (Py.split none l).length < 3 →
        TrayWrapper.find_window_by_pid pid (.ok (l :: rest))
          = TrayWrapper.find_window_by_pid pid (.ok rest)) ∧
    (∀ (pid : Nat) (l f : List Char) (rest : List (List Char)),
        thirdField l = some f → Py.isdigit f = false →
        TrayWrapper.find_window_by_pid pid (.ok (l :: rest))
          = TrayWrapper.find_window_by_pid pid (.ok rest)) ∧
    (∀ (wm : List Char) (l : List Char) (rest : List (List Char)),
        (Py.split none l).length < 4 →
        TrayWrapper.find_window_by_class wm (.ok (l :: rest))
          = TrayWrapper.find_window_by_class wm (.ok rest)) ∧
    (∀ (wm : List Char) (l : List Char) (rest : List (List Char)),
        (Py.split none l).length < 3 →
        MultiAppTray.find_window_by_class wm (.ok (l :: rest))
          = MultiAppTray.find_window_by_class wm (.ok rest)) ∧
    (∀ (wm l : List Char) (rest : List (List Char)) (h : Int),
        (Py.split none l).length = 3 →
        Py.containsSub wm (((Py.split none l).get? 2).getD []) = true →
        Py.int16 (((Py.split none l).get? 0).getD []) = some h →
        MultiAppTray.find_window_by_class wm (.ok (l :: rest)) = some h) := by
  refine ⟨?_, ?_, ?_, ?_, ?_⟩
  · intro pid l rest hlt
    have hlen := Py.split_len 4 l
    simp only [TrayWrapper.find_window_by_pid]
    rw [TrayWrapper.findByPidLoop, if_neg (by rintro ⟨h3, -, -⟩; omega)]
  · intro pid l f rest hf hd
    have hget := Py.split_get 4 2 (by omega) l
    simp only [thirdField] at hf
    simp only [TrayWrapper.find_window_by_pid]
    rw [TrayWrapper.findByPidLoop, if_neg (by
      rintro ⟨-, hdig, -⟩
      rw [hget, hf, Option.getD_some, hd] at hdig
      cases hdig)]
  · intro wm l rest hlt
    have hlen := Py.split_len 5 l
    simp only [TrayWrapper.find_window_by_class]
    rw [TrayWrapper.findByClassLoop, if_neg (by rintro ⟨h4, -⟩; omega)]
  · intro wm l rest hlt
    have hlen := Py.split_len 5 l
    simp only [MultiAppTray.find_window_by_class]
    rw [MultiAppTray.findByClassLoop, if_neg (by rintro ⟨h3, -⟩; omega)]
  · intro wm l rest h hlen3 hcon hint
    have hlen := Py.split_len 5 l
    have hget2 := Py.split_get 5 2 (by omega) l
    have hget0 := Py.split_get 5 0 (by omega) l
    simp only [MultiAppTray.find_window_by_class]
    rw [MultiAppTray.findByClassLoop,
      if_pos ⟨by omega, by rw [hget2]; exact hcon⟩]
    rw [hget0, hint]
    rfl

/-- C10 witness: a two-field line is skipped by the PID scan, which then
resolves from the next line; and the multi-app class scan accepts a 3-field
line, returning its parsed first column. -/
theorem C10_line_skipping_witness :
    TrayWrapper.find_window_by_pid 7 (.ok ["a b".data, "0x7 0 7".data])
      = TrayWrapper.find_window_by_pid 7 (.ok ["0x7 0 7".data]) ∧
    MultiAppTray.find_window_by_class "b".data (.ok ["0xA 0 abc".data]) = some 10 :=
  ⟨C10_line_skipping.1 7 "a b".data ["0x7 0 7".data] (by decide),
   C10_line_skipping.2.2.2.2 "b".data "0xA 0 abc".data [] 10
     (by decide) (by decide) (by decide)⟩
